import Mathlib

/-!
Shallow embedding of `src/buffer/out/TextColor.cpp` (the `TextColor`
tagged color value of a terminal text buffer) and proofs of the
specification claims about it.

Machine bytes (`BYTE`) and `COLORREF` (a 32-bit `DWORD` laid out as
`0x00bbggrr`) are embedded as `Nat`, with explicit bounds hypotheses
where byte-ness matters.  The `FAIL_FAST_IF` abort macro and an
out-of-bounds palette read (undefined behavior in the C++ source) are
embedded as two distinct error outcomes of an `Except`, so that a
fail-fast abort and a silent out-of-bounds access stay distinguishable.
-/

namespace Terminal

/-- The two abnormal outcomes of `TextColor::GetColor`: a `FAIL_FAST_IF`
abort, or an out-of-bounds palette access (undefined behavior in C++). -/
inductive ResolveErr : Type
  | failFast : ResolveErr
  | oobRead : ResolveErr
deriving DecidableEq, Repr

/-- Modelled from the spec: the `ColorType` enumeration is declared in
`TextColor.h`, which is not part of the sources; the spec fixes a
three-valued tag {Default, RGB, Indexed}.  The concrete byte values are
unspecified, so distinct small values are chosen. -/
inductive ColorType : Type
  | IsDefault : ColorType
  | IsRgb : ColorType
  | IsIndex : ColorType
deriving DecidableEq, Repr

/-- The `static_cast<BYTE>` of a `ColorType` value (values modelled, see
`ColorType`). -/
def ColorType.toByte : ColorType → Nat
  | .IsDefault => 0
  | .IsRgb => 1
  | .IsIndex => 2

/-- Modelled from the spec: the field layout of `TextColor` is declared in
`TextColor.h`, which is not part of the sources.  Per the data
model it is one tag byte `_meta` plus three payload bytes, with the
Indexed variant reusing one payload byte as `_index`. -/
structure TextColor : Type where
  _meta : Nat
  _red : Nat
  _green : Nat
  _blue : Nat
deriving DecidableEq, Repr

/-- Modelled from the spec: `_index` shares storage with one of the three
payload bytes (`TextColor.h` declares the union; which byte is shared is
immaterial to the claims).  We let it alias `_red`. -/
def TextColor._index (tc : TextColor) : Nat := tc._red

/-- Modelled from the spec: the default constructor is in `TextColor.h`;
the spec says a `TextColor` is default-constructed as Default. -/
def TextColor.mkDefault : TextColor :=
  { _meta := ColorType.IsDefault.toByte, _red := 0, _green := 0, _blue := 0 }

/-- `TextColor::IsDefault` from TextColor.cpp. -/
def TextColor.IsDefault (tc : TextColor) : Bool :=
  tc._meta == ColorType.IsDefault.toByte

/-- `TextColor::IsRgb` from TextColor.cpp. -/
def TextColor.IsRgb (tc : TextColor) : Bool :=
  tc._meta == ColorType.IsRgb.toByte

/-- `TextColor::IsLegacy` from TextColor.cpp:
`return !(IsDefault() || IsRgb());`. -/
def TextColor.IsLegacy (tc : TextColor) : Bool :=
  !(tc.IsDefault || tc.IsRgb)

/-- Win32 `GetRValue`: low byte of a `COLORREF`. -/
def GetRValue (c : Nat) : Nat := c % 256

/-- Win32 `GetGValue`: second byte of a `COLORREF`. -/
def GetGValue (c : Nat) : Nat := (c / 256) % 256

/-- Win32 `GetBValue`: third byte of a `COLORREF`. -/
def GetBValue (c : Nat) : Nat := (c / 65536) % 256

/-- Win32 `RGB(r,g,b)` macro: packs three bytes as `0x00bbggrr`. -/
def RGB (r g b : Nat) : Nat := r + g * 256 + b * 65536

/-- `TextColor::SetColor` from TextColor.cpp: tag becomes RGB and the
three components of the `COLORREF` are stored. -/
def TextColor.SetColor (tc : TextColor) (rgbColor : Nat) : TextColor :=
  { tc with
    _meta := ColorType.IsRgb.toByte
    _red := GetRValue rgbColor
    _green := GetGValue rgbColor
    _blue := GetBValue rgbColor }

/-- `TextColor::SetIndex` from TextColor.cpp: tag becomes Indexed and the
index byte is stored (writing `_index` writes the aliased payload byte). -/
def TextColor.SetIndex (tc : TextColor) (index : Nat) : TextColor :=
  { tc with
    _meta := ColorType.IsIndex.toByte
    _red := index }

/-- `TextColor::SetDefault` from TextColor.cpp: only the tag byte is
written. -/
def TextColor.SetDefault (tc : TextColor) : TextColor :=
  { tc with _meta := ColorType.IsDefault.toByte }

/-- `TextColor::_GetRGB` from TextColor.cpp: `return RGB(_red, _green, _blue);`. -/
def TextColor._GetRGB (tc : TextColor) : Nat :=
  RGB tc._red tc._green tc._blue

/-- A C++ `colorTable[i]` subscript on a `basic_string_view`: in bounds it
reads the element, out of bounds it is undefined behavior, recorded as
`ResolveErr.oobRead`. -/
def subscript (colorTable : List Nat) (i : Nat) : Except ResolveErr Nat :=
  if h : i < colorTable.length then .ok (colorTable.get ⟨i, h⟩)
  else .error .oobRead

/-- `TextColor::GetColor` from TextColor.cpp, line for line:
default returns the default color; RGB returns `_GetRGB()`;
otherwise `FAIL_FAST_IF(colorTable.size() < _index)`, then if
`brighten && _index < 8` two further fail-fast checks
(`size < 16` and `_index + 8 > size`) guard `colorTable[_index + 8]`,
else `colorTable[_index]`. -/
def TextColor.GetColor (tc : TextColor) (colorTable : List Nat)
    (defaultColor : Nat) (brighten : Bool) : Except ResolveErr Nat :=
  if tc.IsDefault then
    .ok defaultColor
  else if tc.IsRgb then
    .ok tc._GetRGB
  else
    if colorTable.length < tc._index then
      .error .failFast
    else if brighten && decide (tc._index < 8) then
      if colorTable.length < 16 then
        .error .failFast
      else if tc._index + 8 > colorTable.length then
        .error .failFast
      else
        subscript colorTable (tc._index + 8)
    else
      subscript colorTable tc._index

/-- The reachable states of a `TextColor`: default-constructed, then any
sequence of the three setters (setter arguments are bytes). -/
inductive Reachable : TextColor → Prop
  | init : Reachable TextColor.mkDefault
  | setColor (tc : TextColor) (c : Nat) (hc : c < 4294967296) :
      Reachable tc → Reachable (tc.SetColor c)
  | setIndex (tc : TextColor) (i : Nat) (hi : i < 256) :
      Reachable tc → Reachable (tc.SetIndex i)
  | setDefault (tc : TextColor) :
      Reachable tc → Reachable tc.SetDefault

/-- An in-bounds `subscript` is the plain list lookup. -/
theorem subscript_ok (P : List Nat) (i : Nat) (h : i < P.length) :
    subscript P i = .ok (P.getD i 0) := by
  rw [subscript, dif_pos h, List.getD_eq_getElem P 0 h, List.get_eq_getElem]

/-- The tag written by `SetIndex` is neither the Default nor the RGB tag. -/
theorem setIndex_not_default_not_rgb (tc : TextColor) (i : Nat) :
    (tc.SetIndex i).IsDefault = false ∧ (tc.SetIndex i).IsRgb = false := by
  constructor <;> rfl

/-- C1: the spec claims that `GetColor` on an Indexed value with stored
index `i` and a palette of length exactly `i` triggers the fatal
fail-fast path.  The code checks `FAIL_FAST_IF(colorTable.size() < _index)`,
which is false when the size equals the index, so no fail-fast fires and
`colorTable[_index]` is read one past the end (undefined behavior).
Concretely: index 2, palette `[10, 20]` of length 2, brighten false. -/
theorem getColor_index_eq_size_is_oob_not_failfast :
    (TextColor.mkDefault.SetIndex 2).GetColor [10, 20] 0 false
      = .error .oobRead ∧
    (TextColor.mkDefault.SetIndex 2).GetColor [10, 20] 0 false
      ≠ .error .failFast := by
  constructor
  · rfl
  · intro h
    exact ResolveErr.noConfusion (Except.error.inj h)

/-- C2: for every index `i ≤ 7` and palette of length at least 16, after
`SetIndex i` resolution with brighten = true yields `P[i+8]` and with
brighten = false yields `P[i]`. -/
theorem getColor_dark_index (tc : TextColor) (i : Nat) (P : List Nat)
    (D : Nat) (hi : i ≤ 7) (hP : 16 ≤ P.length) :
    (tc.SetIndex i).GetColor P D true = .ok (P.getD (i + 8) 0) ∧
    (tc.SetIndex i).GetColor P D false = .ok (P.getD i 0) := by
  have h1 : ¬ P.length < i := by omega
  have h2 : i < 8 := by omega
  have h3 : ¬ P.length < 16 := by omega
  have h4 : ¬ i + 8 > P.length := by omega
  have h5 : i + 8 < P.length := by omega
  have h6 : i < P.length := by omega
  constructor <;>
    simp [TextColor.GetColor, TextColor.SetIndex, TextColor.IsDefault,
      TextColor.IsRgb, TextColor._index, ColorType.toByte, h1, h2, h3, h4,
      subscript_ok _ _ h5, subscript_ok _ _ h6]

/-- C2 witness: index 3, the 16-entry palette `List.range 16`. -/
theorem getColor_dark_index_witness :
    (3 : Nat) ≤ 7 ∧ 16 ≤ (List.range 16).length ∧
    ((TextColor.mkDefault.SetIndex 3).GetColor (List.range 16) 0 true
        = .ok ((List.range 16).getD (3 + 8) 0) ∧
     (TextColor.mkDefault.SetIndex 3).GetColor (List.range 16) 0 false
        = .ok ((List.range 16).getD 3 0)) :=
  ⟨by decide, by decide,
    getColor_dark_index TextColor.mkDefault 3 (List.range 16) 0
      (by decide) (by decide)⟩

/-- C3: `SetColor C` followed by `GetColor` returns exactly `C` for every
8-bit-per-channel color (`C < 2^24`), for every palette, default color
and brighten flag. -/
theorem getColor_rgb_roundtrip (tc : TextColor) (C : Nat) (P : List Nat)
    (D : Nat) (b : Bool) (hC : C < 16777216) :
    (tc.SetColor C).GetColor P D b = .ok C := by
  have hrgb : (tc.SetColor C)._GetRGB = C := by
    simp only [TextColor.SetColor, TextColor._GetRGB, RGB, GetRValue,
      GetGValue, GetBValue]
    omega
  simp [TextColor.GetColor, TextColor.SetColor, TextColor.IsDefault,
    TextColor.IsRgb, ColorType.toByte] at hrgb ⊢
  simpa [TextColor.SetColor] using hrgb

/-- C3 witness: the color `0x123456`, an empty palette, default 0. -/
theorem getColor_rgb_roundtrip_witness :
    (1193046 : Nat) < 16777216 ∧
    (TextColor.mkDefault.SetColor 1193046).GetColor [] 0 false
      = .ok 1193046 :=
  ⟨by decide,
    getColor_rgb_roundtrip TextColor.mkDefault 1193046 [] 0 false (by decide)⟩

/-- C4: for every index `8 ≤ i ≤ 255` and palette longer than `i`, after
`SetIndex i` resolution returns `P[i]` whatever the brighten flag. -/
theorem getColor_bright_or_extended_index (tc : TextColor) (i : Nat)
    (P : List Nat) (D : Nat) (b : Bool) (h8 : 8 ≤ i) (hi : i ≤ 255)
    (hP : i < P.length) :
    (tc.SetIndex i).GetColor P D b = .ok (P.getD i 0) := by
  have h1 : ¬ P.length < i := by omega
  have h2 : ¬ i < 8 := by omega
  simp [TextColor.GetColor, TextColor.SetIndex, TextColor.IsDefault,
    TextColor.IsRgb, TextColor._index, ColorType.toByte, h1, h2,
    subscript_ok _ _ hP]

set_option maxRecDepth 4000 in
/-- C4 witness: index 200 in a 256-entry palette, brighten = true. -/
theorem getColor_bright_or_extended_index_witness :
    (8 : Nat) ≤ 200 ∧ (200 : Nat) ≤ 255 ∧ 200 < (List.range 256).length ∧
    (TextColor.mkDefault.SetIndex 200).GetColor (List.range 256) 0 true
      = .ok ((List.range 256).getD 200 0) :=
  ⟨by decide, by decide, by decide,
    getColor_bright_or_extended_index TextColor.mkDefault 200
      (List.range 256) 0 true (by decide) (by decide) (by decide)⟩

/-- C5: after `SetDefault`, `GetColor` returns the supplied default color
for every palette, default color and brighten flag. -/
theorem getColor_default (tc : TextColor) (P : List Nat) (D : Nat)
    (b : Bool) :
    tc.SetDefault.GetColor P D b = .ok D := by
  simp [TextColor.GetColor, TextColor.SetDefault, TextColor.IsDefault,
    ColorType.toByte]

/-- C6: on an Indexed value with stored index `i < 8` and brighten = true,
`GetColor` fail-fasts exactly when the palette is shorter than 16 or
shorter than `i + 8`, and otherwise returns `P[i+8]`. -/
theorem getColor_brighten_failfast_iff (tc : TextColor) (i : Nat)
    (P : List Nat) (D : Nat) (hi : i < 8) :
    ((P.length < 16 ∨ P.length < i + 8) →
      (tc.SetIndex i).GetColor P D true = .error .failFast) ∧
    (¬(P.length < 16 ∨ P.length < i + 8) →
      (tc.SetIndex i).GetColor P D true = .ok (P.getD (i + 8) 0)) := by
  constructor
  · intro hshort
    have h16 : P.length < 16 := by omega
    by_cases hc : P.length < i
    · simp [TextColor.GetColor, TextColor.SetIndex, TextColor.IsDefault,
        TextColor.IsRgb, TextColor._index, ColorType.toByte, hc]
    · simp [TextColor.GetColor, TextColor.SetIndex, TextColor.IsDefault,
        TextColor.IsRgb, TextColor._index, ColorType.toByte, hc, hi, h16]
  · intro hlong
    have hP : 16 ≤ P.length := by omega
    exact (getColor_dark_index tc i P D (by omega) hP).1

/-- C6 witness: index 3 with an 8-entry palette (too short: fail-fast) and
with a 16-entry palette (long enough: returns entry 11). -/
theorem getColor_brighten_failfast_iff_witness :
    ((3 : Nat) < 8 ∧
      (((List.range 8).length < 16 ∨ (List.range 8).length < 3 + 8) →
        (TextColor.mkDefault.SetIndex 3).GetColor (List.range 8) 0 true
          = .error .failFast) ∧
      (¬((List.range 8).length < 16 ∨ (List.range 8).length < 3 + 8) →
        (TextColor.mkDefault.SetIndex 3).GetColor (List.range 8) 0 true
          = .ok ((List.range 8).getD (3 + 8) 0))) ∧
    ((List.range 8).length < 16 ∨ (List.range 8).length < 3 + 8) :=
  ⟨⟨by decide,
    getColor_brighten_failfast_iff TextColor.mkDefault 3 (List.range 8) 0
      (by decide)⟩,
   by decide⟩

/-- C7: for every reachable state, `IsLegacy` is true exactly when
`IsDefault` and `IsRgb` are both false, and exactly one of the three
predicates holds. -/
theorem isLegacy_iff_not_default_not_rgb (tc : TextColor)
    (h : Reachable tc) :
    (tc.IsLegacy = true ↔ (tc.IsDefault = false ∧ tc.IsRgb = false)) ∧
    ((tc.IsDefault = true ∧ tc.IsRgb = false ∧ tc.IsLegacy = false) ∨
     (tc.IsDefault = false ∧ tc.IsRgb = true ∧ tc.IsLegacy = false) ∨
     (tc.IsDefault = false ∧ tc.IsRgb = false ∧ tc.IsLegacy = true)) := by
  have hdr : ¬(tc._meta = 0 ∧ tc._meta = 1) := by omega
  cases hd : tc.IsDefault <;> cases hr : tc.IsRgb <;>
    simp_all [TextColor.IsLegacy, TextColor.IsDefault, TextColor.IsRgb,
      ColorType.toByte]

/-- C7 witness: the default-constructed value is reachable. -/
theorem isLegacy_iff_not_default_not_rgb_witness :
    Reachable TextColor.mkDefault ∧
    ((TextColor.mkDefault.IsLegacy = true ↔
        (TextColor.mkDefault.IsDefault = false ∧
         TextColor.mkDefault.IsRgb = false)) ∧
     ((TextColor.mkDefault.IsDefault = true ∧
         TextColor.mkDefault.IsRgb = false ∧
         TextColor.mkDefault.IsLegacy = false) ∨
      (TextColor.mkDefault.IsDefault = false ∧
         TextColor.mkDefault.IsRgb = true ∧
         TextColor.mkDefault.IsLegacy = false) ∨
      (TextColor.mkDefault.IsDefault = false ∧
         TextColor.mkDefault.IsRgb = false ∧
         TextColor.mkDefault.IsLegacy = true))) :=
  ⟨Reachable.init,
    isLegacy_iff_not_default_not_rgb TextColor.mkDefault Reachable.init⟩

/-- C8: `SetIndex` accepts every byte value, sets the Indexed tag, stores
exactly the given index byte with no masking or clamping, and never
consults a palette. -/
theorem setIndex_stores_exact_index (tc : TextColor) (i : Nat)
    (hi : i < 256) :
    (tc.SetIndex i)._meta = ColorType.IsIndex.toByte ∧
    (tc.SetIndex i)._index = i ∧
    (tc.SetIndex i).IsLegacy = true :=
  ⟨rfl, rfl, rfl⟩

/-- C8 witness: index 200. -/
theorem setIndex_stores_exact_index_witness :
    (200 : Nat) < 256 ∧
    ((TextColor.mkDefault.SetIndex 200)._meta = ColorType.IsIndex.toByte ∧
     (TextColor.mkDefault.SetIndex 200)._index = 200 ∧
     (TextColor.mkDefault.SetIndex 200).IsLegacy = true) :=
  ⟨by decide, setIndex_stores_exact_index TextColor.mkDefault 200 (by decide)⟩

/-- C9: `SetDefault` writes only the tag byte: from any prior state the
three payload bytes (and hence the aliased index byte) are unchanged, the
tag becomes Default, and nothing can fail. -/
theorem setDefault_frame (tc : TextColor) :
    tc.SetDefault._red = tc._red ∧
    tc.SetDefault._green = tc._green ∧
    tc.SetDefault._blue = tc._blue ∧
    tc.SetDefault._index = tc._index ∧
    tc.SetDefault._meta = ColorType.IsDefault.toByte ∧
    tc.SetDefault.IsDefault = true :=
  ⟨rfl, rfl, rfl, rfl, rfl, rfl⟩

/-- C10: in the brighten branch (Indexed, stored index below 8, brighten
requested), once the palette has at least 16 entries the third fail-fast
check `_index + 8 > colorTable.size()` cannot trigger — its condition is
false and resolution succeeds with `P[i+8]`. -/
theorem brighten_second_check_unreachable (tc : TextColor) (i : Nat)
    (P : List Nat) (D : Nat) (hi : i < 8) (hP : 16 ≤ P.length) :
    ¬((tc.SetIndex i)._index + 8 > P.length) ∧
    (tc.SetIndex i).GetColor P D true = .ok (P.getD (i + 8) 0) := by
  refine ⟨?_, (getColor_dark_index tc i P D (by omega) hP).1⟩
  show ¬(i + 8 > P.length)
  omega

/-- C10 witness: index 7 with a 16-entry palette. -/
theorem brighten_second_check_unreachable_witness :
    (7 : Nat) < 8 ∧ 16 ≤ (List.range 16).length ∧
    (¬((TextColor.mkDefault.SetIndex 7)._index + 8 > (List.range 16).length) ∧
     (TextColor.mkDefault.SetIndex 7).GetColor (List.range 16) 0 true
       = .ok ((List.range 16).getD (7 + 8) 0)) :=
  ⟨by decide, by decide,
    brighten_second_check_unreachable TextColor.mkDefault 7 (List.range 16) 0
      (by decide) (by decide)⟩

end Terminal
